import Mathlib

/-!
Verification of the MotionInspector motion-spec extraction pipeline.

The definitions below are a shallow embedding of the After Effects export
script `docs/Motion_Spec_Desktop_Export.jsx` and of the downstream
splitting/regrouping code quoted in `docs/MOTION_SPEC_PROCESSING_GUIDE.md`.
JavaScript numbers are modelled as exact rationals (`Rat`); `Math.round`
is modelled as `jsRound` (round half toward positive infinity, which is
JavaScript's behaviour); JS string containment (`indexOf(...) !== -1`) is
modelled by `containsSub`.
-/

/-- JavaScript `Math.round`: rounds half toward positive infinity. -/
def jsRound (x : Rat) : Int := ⌊x + 1/2⌋

/-- `roundMs` from Motion_Spec_Desktop_Export.jsx: converts seconds to
milliseconds, snapping sub-0.5ms magnitudes to 0, otherwise Math.round. -/
def roundMs (seconds : Rat) : Int :=
  let ms := seconds * 1000
  if |ms| < 1/2 then 0 else jsRound ms

/-- `roundPx` from Motion_Spec_Desktop_Export.jsx: snaps sub-0.5px magnitudes
to 0, otherwise Math.round; always an integer. -/
def roundPx (pixels : Rat) : Int :=
  if |pixels| < 1/2 then 0 else jsRound pixels

/-- JS `s.indexOf(pat) !== -1` on char lists (empty pattern always found). -/
def containsSubAux (pat : List Char) : List Char → Bool
  | [] => pat.isEmpty
  | c :: t => pat.isPrefixOf (c :: t) || containsSubAux pat t

/-- JS substring containment `s.indexOf(pat) !== -1`. -/
def containsSub (s pat : String) : Bool := containsSubAux pat.data s.data

/-- JS `s.substring(s.length - pat.length) === pat` (suffix test; when `pat`
is longer than `s` the JS substring call clamps to the whole string and the
equality fails, exactly as `List.isSuffixOf`). -/
def endsWithJs (s pat : String) : Bool := pat.data.isSuffixOf s.data

/-! ## Resolution scaling detector (`detectCompositionMultiplier`) -/

/-- One entry of the `resolutionPatterns` table in
`detectCompositionMultiplier`: a multiplier with its known device widths and
heights. -/
structure ResolutionPattern where
  multiplier : Nat
  widths : List Int
  heights : List Int
deriving DecidableEq, Repr

/-- The `resolutionPatterns` table from `detectCompositionMultiplier`
(Motion_Spec_Desktop_Export.jsx lines 384-391). -/
def resolutionPatterns : List ResolutionPattern :=
  [ ⟨1, [375, 390, 414, 428, 393], [667, 844, 896, 926, 852]⟩,
    ⟨2, [750, 780, 828, 856, 786], [1334, 1688, 1792, 1852, 1704]⟩,
    ⟨3, [1125, 1170, 1242, 1284, 1179], [2001, 2532, 2688, 2778, 2556]⟩,
    ⟨1, [360, 411, 393, 412], [640, 731, 786, 915]⟩,
    ⟨2, [720, 822, 786, 824], [1280, 1462, 1572, 1830]⟩,
    ⟨3, [1080, 1233, 1179, 1236], [1920, 2193, 2358, 2745]⟩ ]

/-- The inner loop of `detectCompositionMultiplier`: the composition matches
a pattern when for some position `j`, the width is within 5 of `widths[j]`
AND the height is within 5 of `heights[j]` (same index on both lists - the
source indexes `pattern.heights[j]` with the width loop counter `j`). -/
def patternMatches (width height : Int) (p : ResolutionPattern) : Bool :=
  (p.widths.zip p.heights).any fun wh =>
    decide (|width - wh.1| ≤ 5) && decide (|height - wh.2| ≤ 5)

/-- `detectCompositionMultiplier` (Motion_Spec_Desktop_Export.jsx lines
370-406): manual override wins when positive; otherwise the first pattern of
the table that matches the composition's dimensions; fallback 1. -/
def detectCompositionMultiplier (override : Nat) (width height : Int) : Nat :=
  if 0 < override then override
  else
    match resolutionPatterns.find? (patternMatches width height) with
    | some p => p.multiplier
    | none => 1

/-- Modelled from the claim's words (C2), for comparison with the source: a
bucket matches when the width is within ±5 of SOME entry of the width list
and the height within ±5 of SOME entry of the height list, the two entries
not necessarily at the same index. -/
def claimPatternMatches (width height : Int) (p : ResolutionPattern) : Bool :=
  (p.widths.any fun w0 => decide (|width - w0| ≤ 5)) &&
  (p.heights.any fun h0 => decide (|height - h0| ≤ 5))

/-- Multiplier under the claim's independent-index reading of bucket match. -/
def claimMultiplier (width height : Int) : Nat :=
  match resolutionPatterns.find? (claimPatternMatches width height) with
  | some p => p.multiplier
  | none => 1

/-! ## Spring presets and marker springs -/

/-- One entry of the `SPRING_PRESETS` table (Motion_Spec_Desktop_Export.jsx
lines 44-51). -/
structure SpringPreset where
  stiffness : Rat
  damping : Rat
  dampingRatio : Rat
  mass : Rat
deriving DecidableEq, Repr

/-- The `SPRING_PRESETS` table from the shared library. -/
def SPRING_PRESETS : List (String × SpringPreset) :=
  [ ("Standard Spring", ⟨175, 26.46, 1, 1⟩),
    ("Fast Spring", ⟨300, 34.64, 1, 1⟩),
    ("Slow Spring", ⟨100, 20, 1, 1⟩),
    ("Gentle Spring", ⟨120, 18, 0.8, 1⟩),
    ("Snappy Spring", ⟨400, 40, 1, 1⟩),
    ("Bouncy Spring", ⟨200, 12, 0.6, 1⟩) ]

/-- The custom-parameter object attached to a parsed marker spring. Each
field is `Option`al: `none` models a JS property that is absent
(`undefined`). -/
structure SpringCustom where
  stiffness : Option Rat
  damping : Option Rat
  dampingRatio : Option Rat
  mass : Option Rat
deriving DecidableEq, Repr

/-- One spring definition as produced by `parseAllSpringsFromMarker`:
a preset line, optional custom parameters, optional target property path. -/
structure SpringData where
  preset : String
  custom : Option SpringCustom
  property : Option String
deriving DecidableEq, Repr

/-- JS truthiness of an optional string: `undefined` and `""` are falsy. -/
def truthyStr : Option String → Bool
  | none => false
  | some s => s != ""

/-- JS truthiness of an optional number: `undefined` and `0` are falsy
(NaN does not arise for parsed marker values). -/
def truthyNum : Option Rat → Bool
  | none => false
  | some v => v != 0

/-- `findSpringForProperty` (Motion_Spec_Desktop_Export.jsx lines 912-944):
first an exact match on the recorded property path, then a path-suffix
match, then the first spring with no recorded property at all. -/
def findSpringForProperty (springs : List SpringData) (propertyName : String) :
    Option SpringData :=
  match springs.find? (fun s => truthyStr s.property && (s.property == some propertyName)) with
  | some s => some s
  | none =>
    match springs.find? (fun s =>
        match s.property with
        | some p => (p != "") && containsSub p propertyName && endsWithJs p propertyName
        | none => false) with
    | some s => some s
    | none => springs.find? (fun s => !truthyStr s.property)

/-- The spring payload stored on the easing after the preset backfill. -/
structure SpringEasingData where
  preset : String
  custom : Option SpringCustom
deriving DecidableEq, Repr

/-- The backfill step of `extractAnimationData` (lines 1362-1375): when the
preset name is in `SPRING_PRESETS`, every custom parameter that is JS-falsy
(absent OR zero) is overwritten with the preset table's value. -/
def resolveSpringData (m : SpringData) : SpringEasingData :=
  match SPRING_PRESETS.lookup m.preset with
  | none => ⟨m.preset, m.custom⟩
  | some p =>
    let c := m.custom.getD ⟨none, none, none, none⟩
    ⟨m.preset, some ⟨
      if truthyNum c.stiffness then c.stiffness else some p.stiffness,
      if truthyNum c.damping then c.damping else some p.damping,
      if truthyNum c.dampingRatio then c.dampingRatio else some p.dampingRatio,
      if truthyNum c.mass then c.mass else some p.mass⟩⟩

/-- A layer marker. The comment string is modelled at the granularity of the
spring list `parseAllSpringsFromMarker` extracts from it; `none` stands for
a marker with no comment (or an empty one), which the source skips. -/
structure Marker where
  time : Rat
  springs : Option (List SpringData)
deriving DecidableEq, Repr

/-! ## Keyframes and properties -/

/-- A keyframe value: a JS number or a 2-component array (position, scale). -/
inductive JValue
  | num (q : Rat)
  | vec2 (x y : Rat)
deriving DecidableEq, Repr

/-- `KeyframeInterpolationType` of After Effects. -/
inductive InterpKind
  | bezier
  | linear
  | hold
deriving DecidableEq, Repr

/-- One entry of a keyframe's temporal-ease array (influence and speed,
both percentages). -/
structure EaseData where
  influence : Rat
  speed : Rat
deriving DecidableEq, Repr

/-- One keyframe of an animated property: selection flag, time, value,
in/out interpolation types and in/out temporal ease arrays. -/
structure AEKey where
  selected : Bool
  time : Rat
  value : JValue
  inInterp : InterpKind
  outInterp : InterpKind
  inEase : List EaseData
  outEase : List EaseData
deriving DecidableEq, Repr

/-- An animated property: display name, `canVaryOverTime`, and its keyframes
in time order. -/
structure AEProp where
  name : String
  canVaryOverTime : Bool
  keys : List AEKey
deriving DecidableEq, Repr

/-- The propInfo records built by `findPropertiesWithSelectedKeyframes`:
the property together with its display name and matchName. -/
structure PropInfo where
  property : AEProp
  name : String
  matchName : String
deriving DecidableEq, Repr

/-- A layer, reduced to the layer-level marker stream that
`extractAnimationData` consults. -/
structure AELayer where
  markers : List Marker
deriving DecidableEq, Repr

/-- The composition data `extractAnimationData` reads. -/
structure CompInfo where
  workAreaStart : Rat
deriving DecidableEq, Repr

/-! ## Cubic bezier and baked-spring detection -/

/-- Clamp to the unit interval (`Math.max(0, Math.min(1, x))`). -/
def clamp01 (q : Rat) : Rat := max 0 (min 1 q)

/-- `Math.round(x * 100) / 100`: round to 2 decimal places. -/
def round2 (q : Rat) : Rat := (jsRound (q * 100) : Rat) / 100

/-- `extractCubicBezierFromSelectedKeyframesForProperty` (lines 1002-1089):
from the first two selected keyframes with bezier interpolation, build the
CSS cubic-bezier control quadruple (influence/speed percentages converted,
clamped to [0,1], rounded to 2 decimals). The source renders the quadruple
into the string "cubic-bezier(x1, y1, x2, y2)" with toFixed(2); since that
formatting is injective on the rounded values, the quadruple is kept as the
model of the string. -/
def extractCubicBezierFromSelectedKeyframesForProperty (prop : AEProp) :
    Option (Rat × Rat × Rat × Rat) :=
  if prop.canVaryOverTime = false ∨ prop.keys.length < 2 then none
  else
    match prop.keys.filter (fun k =>
        k.selected && (k.inInterp == InterpKind.bezier || k.outInterp == InterpKind.bezier)) with
    | firstKey :: secondKey :: _ =>
      match firstKey.outEase, secondKey.inEase with
      | outEaseData :: _, inEaseData :: _ =>
        let x1 := clamp01 (outEaseData.influence / 100)
        let y1 := clamp01 (outEaseData.speed / 100)
        let x2 := clamp01 (1 - inEaseData.influence / 100)
        let y2 := clamp01 (1 - inEaseData.speed / 100)
        some (round2 x1, round2 y1, round2 x2, round2 y2)
      | _, _ => none
    | _ => none

/-- The record returned by `detectBakedSpringInRange` on success. -/
structure BakedSpringInfo where
  density : Rat
  keysInRange : Nat
  classification : String
deriving DecidableEq, Repr

/-- `detectBakedSpringInRange` (lines 967-999): a baked spring is reported
when at least 20 keyframes fall in the selected range at a density of at
least 20 keyframes per second. -/
def detectBakedSpringInRange (prop : AEProp) (startTime endTime : Rat) :
    Option BakedSpringInfo :=
  if prop.canVaryOverTime = false ∨ prop.keys.length < 2 then none
  else
    let keysInRange := (prop.keys.filter fun k =>
      decide (startTime ≤ k.time) && decide (k.time ≤ endTime)).length
    let rangeDuration := endTime - startTime
    let keyframeDensity := (keysInRange : Rat) / rangeDuration
    if 20 ≤ keysInRange ∧ 20 ≤ keyframeDensity then
      some ⟨keyframeDensity, keysInRange,
        if 30 < keyframeDensity then "Fast Spring"
        else if 25 < keyframeDensity then "Standard Spring"
        else "Gentle Spring"⟩
    else none

/-! ## Value extraction (`extractPropertyValues`) -/

/-- The `animatingAxes` metadata of a combined position property. -/
structure AnimAxes where
  x : Bool
  y : Bool
  both : Bool
  neither : Bool
deriving DecidableEq, Repr

/-- The `values` record built by `extractPropertyValues`. The `formatted`
display strings of the source are presentation-only and are not modelled;
the numeric `startValue`/`endValue`/`change` fields and the `type` tag are.
A JS NaN (arithmetic on a shape-mismatched value) is modelled as `none`. -/
structure PropValues where
  startValue : Option JValue
  endValue : Option JValue
  change : Option JValue
  type : String
  animatingAxes : Option AnimAxes
deriving DecidableEq, Repr

/-- The initial `values` object (fewer than two selected keyframes). -/
def emptyPropValues : PropValues :=
  { startValue := none, endValue := none, change := none,
    type := "unknown", animatingAxes := none }

/-- JS subtraction on keyframe values (`end - start`); mismatched shapes
give NaN in JS, modelled as `none`. -/
def jvSub : JValue → JValue → Option JValue
  | JValue.num a, JValue.num b => some (JValue.num (a - b))
  | _, _ => none

/-- The combined/split Position branch of `extractPropertyValues` (lines
577-629): values are divided by the multiplier, then rounded with `roundPx`;
for a combined 2-axis value the per-axis significance flags (change above
0.5px) are recorded in `animatingAxes`. -/
def positionValues (multiplier : Rat) (startKey endKey : AEKey) : PropValues :=
  match startKey.value, endKey.value with
  | JValue.vec2 sx sy, JValue.vec2 ex ey =>
    let startX := sx / multiplier
    let startY := sy / multiplier
    let endX := ex / multiplier
    let endY := ey / multiplier
    let changeX := endX - startX
    let changeY := endY - startY
    let xAnimates := decide (1/2 < |changeX|)
    let yAnimates := decide (1/2 < |changeY|)
    { startValue := some (JValue.vec2 (roundPx startX) (roundPx startY)),
      endValue := some (JValue.vec2 (roundPx endX) (roundPx endY)),
      change := some (JValue.vec2 (roundPx changeX) (roundPx changeY)),
      type := "position",
      animatingAxes := some ⟨xAnimates, yAnimates, xAnimates && yAnimates,
        !xAnimates && !yAnimates⟩ }
  | JValue.num sv, JValue.num ev =>
    let startVal := sv / multiplier
    let endVal := ev / multiplier
    let changeVal := endVal - startVal
    { startValue := some (JValue.num (roundPx startVal)),
      endValue := some (JValue.num (roundPx endVal)),
      change := some (JValue.num (roundPx changeVal)),
      type := "position", animatingAxes := none }
  | _, _ => { emptyPropValues with type := "position" }

/-- The Scale branch (lines 630-643): raw values, no scaling, no rounding;
a non-array scale value leaves the fields null (only the type tag is set). -/
def scaleValues (startKey endKey : AEKey) : PropValues :=
  match startKey.value, endKey.value with
  | JValue.vec2 sx sy, JValue.vec2 ex ey =>
    { startValue := some (JValue.vec2 sx sy),
      endValue := some (JValue.vec2 ex ey),
      change := some (JValue.vec2 (ex - sx) (ey - sy)),
      type := "scale", animatingAxes := none }
  | _, _ => { emptyPropValues with type := "scale" }

/-- The Opacity and Rotation branches (lines 644-665): both store the raw
keyframe values unscaled and unrounded (only the omitted display strings
round them). -/
def rawScalarValues (typeTag : String) (startKey endKey : AEKey) : PropValues :=
  { startValue := some startKey.value,
    endValue := some endKey.value,
    change := jvSub endKey.value startKey.value,
    type := typeTag, animatingAxes := none }

/-- The corner-radius and dimensional branches (lines 682-719): scalar
values divided by the multiplier, then rounded with `roundPx`. -/
def scaledScalarValues (typeTag : String) (multiplier : Rat)
    (startKey endKey : AEKey) : PropValues :=
  match startKey.value, endKey.value with
  | JValue.num sv, JValue.num ev =>
    let startVal := sv / multiplier
    let endVal := ev / multiplier
    let changeVal := endVal - startVal
    { startValue := some (JValue.num (roundPx startVal)),
      endValue := some (JValue.num (roundPx endVal)),
      change := some (JValue.num (roundPx changeVal)),
      type := typeTag, animatingAxes := none }
  | _, _ => { emptyPropValues with type := typeTag }

/-- The final fallback branch (lines 720-731): raw values, no scaling, and
the type tag stays "unknown". -/
def genericValues (startKey endKey : AEKey) : PropValues :=
  { startValue := some startKey.value,
    endValue := some endKey.value,
    change := jvSub endKey.value startKey.value,
    type := "unknown", animatingAxes := none }

/-- JS `toLowerCase` (`lowercased()` in Swift), modelled as a per-character
map so that it evaluates on concrete inputs. -/
def jsToLower (s : String) : String := String.mk (s.data.map Char.toLower)

/-- The corner-property name test of lines 668-680 (all on the lowercased
name). -/
def isCornerName (name : String) : Bool :=
  let lname := jsToLower name
  containsSub lname "tl" || containsSub lname "tr" || containsSub lname "bl" ||
  containsSub lname "br" || containsSub lname "unified radius" ||
  containsSub lname "unified corners" || containsSub lname "top left" ||
  containsSub lname "top right" || containsSub lname "bottom left" ||
  containsSub lname "bottom right" || containsSub lname "corner" ||
  containsSub lname "radius" || containsSub lname "smoothing"

/-- The dimensional-property name test of lines 698-703. -/
def isDimensionalName (name : String) : Bool :=
  let lname := jsToLower name
  containsSub lname "width" || containsSub lname "height" ||
  containsSub lname "size" || containsSub lname "distance" ||
  containsSub lname "softness"

/-- `extractPropertyValues` (lines 551-736): start/end values of the first
and last selected keyframes, dispatched on the property name exactly as the
source's if-chain does. -/
def extractPropertyValues (prop : AEProp) (multiplier : Rat) : PropValues :=
  match prop.keys.filter (fun k => k.selected) with
  | startKey :: nextKey :: restKeys =>
    let endKey := (nextKey :: restKeys).getLastD startKey
    if containsSub prop.name "Position" then positionValues multiplier startKey endKey
    else if containsSub prop.name "Scale" then scaleValues startKey endKey
    else if containsSub prop.name "Opacity" || containsSub prop.name "opacity" then
      rawScalarValues "opacity" startKey endKey
    else if containsSub prop.name "Rotation" || containsSub prop.name "rotation" then
      rawScalarValues "rotation" startKey endKey
    else if isCornerName prop.name then
      scaledScalarValues "corner_radius" multiplier startKey endKey
    else if isDimensionalName prop.name then
      scaledScalarValues "dimensional" multiplier startKey endKey
    else genericValues startKey endKey
  | _ => emptyPropValues

/-! ## Easing classification (`extractAnimationData`) -/

/-- The easing union produced by `extractAnimationData`: linear (default),
spring (from a marker, or from the disabled baked heuristic) or
cubic-bezier (from selected keyframes); the second component is the
`source` tag from the source code. -/
inductive Easing
  | linear
  | spring (data : SpringEasingData) (src : String)
  | cubicBezier (bez : Rat × Rat × Rat × Rat) (src : String)
deriving DecidableEq, Repr

/-- The `source` field of an easing (`null` for linear). -/
def Easing.sourceTag : Easing → Option String
  | Easing.linear => none
  | Easing.spring _ s => some s
  | Easing.cubicBezier _ s => some s

/-- The `timing` record of an animation (integer milliseconds). -/
structure TimingInfo where
  delay : Int
  duration : Int
deriving DecidableEq, Repr

/-- The animation record built by `extractAnimationData` (`movement` is
never set on this path and is omitted). -/
structure AnimationData where
  property : String
  hasKeyframes : Bool
  easing : Easing
  timing : TimingInfo
  values : PropValues
deriving DecidableEq, Repr

/-- The selected keyframe times of a property, in keyframe order (the
source pushes `keyTime(i)` for each selected index `i`). -/
def selectedTimesOf (prop : AEProp) : List Rat :=
  (prop.keys.filter (fun k => k.selected)).map (fun k => k.time)

/-- The timing computation of `extractAnimationData` (lines 1320-1336). -/
def timingOf (prop : AEProp) (workAreaStart : Rat) : TimingInfo :=
  let selectedTimes := selectedTimesOf prop
  if 2 ≤ selectedTimes.length then
    { delay := roundMs (selectedTimes.headD 0 - workAreaStart),
      duration := roundMs (selectedTimes.getLastD 0 - selectedTimes.headD 0) }
  else { delay := 0, duration := 0 }

/-- The marker loop of `extractAnimationData` (lines 1351-1388): scan the
layer markers in order; the first one inside the selected-keyframe time
range that has a comment and whose parsed springs contain a match for the
property wins (`break`); markers outside the range, without comment, or
without a matching spring are passed over. -/
def scanMarkersForSpring (markers : List Marker)
    (selectedStartTime selectedEndTime : Rat) (matchName : String) :
    Option SpringData :=
  match markers with
  | [] => none
  | m :: rest =>
    if selectedStartTime ≤ m.time ∧ m.time ≤ selectedEndTime then
      match m.springs with
      | some springs =>
        match findSpringForProperty springs matchName with
        | some matched => some matched
        | none => scanMarkersForSpring rest selectedStartTime selectedEndTime matchName
      | none => scanMarkersForSpring rest selectedStartTime selectedEndTime matchName
    else scanMarkersForSpring rest selectedStartTime selectedEndTime matchName

/-- `SPRING_PRESETS[classification] || {}` of the baked-spring branch. -/
def bakedCustom (classification : String) : Option SpringCustom :=
  match SPRING_PRESETS.lookup classification with
  | some p => some ⟨some p.stiffness, some p.damping, some p.dampingRatio, some p.mass⟩
  | none => some ⟨none, none, none, none⟩

/-- The easing classification of `extractAnimationData` (lines 1341-1420):
spring markers first (only within the selected keyframe range), then the
baked-spring heuristic - which the source disables with a hard `false &&`
guard, kept here as the literally false conjunct - then per-property cubic
bezier, then linear. -/
def easingOf (layer : AELayer) (prop : AEProp) (matchName : String) : Easing :=
  let selectedTimes := selectedTimesOf prop
  let springEasing : Option Easing :=
    if 0 < layer.markers.length ∧ 2 ≤ selectedTimes.length then
      (scanMarkersForSpring layer.markers (selectedTimes.headD 0)
          (selectedTimes.getLastD 0) matchName).map
        (fun matched => Easing.spring (resolveSpringData matched) "marker")
    else none
  let bezierFallback : Easing :=
    match extractCubicBezierFromSelectedKeyframesForProperty prop with
    | some bez => Easing.cubicBezier bez "keyframes"
    | none => Easing.linear
  match springEasing with
  | some e => e
  | none =>
    if False ∧ 2 ≤ selectedTimes.length then
      match detectBakedSpringInRange prop (selectedTimes.headD 0)
          (selectedTimes.getLastD 0) with
      | some baked =>
        Easing.spring ⟨baked.classification, bakedCustom baked.classification⟩ "baked"
      | none => bezierFallback
    else bezierFallback

/-- `extractAnimationData` (lines 1308-1423): property name, timing from
the selected keyframes, values from `extractPropertyValues`, easing from
the priority classification. -/
def extractAnimationData (layer : AELayer) (propInfo : PropInfo)
    (comp : CompInfo) (multiplier : Rat) : AnimationData :=
  { property := propInfo.name,
    hasKeyframes := true,
    easing := easingOf layer propInfo.property propInfo.matchName,
    timing := timingOf propInfo.property comp.workAreaStart,
    values := extractPropertyValues propInfo.property multiplier }

/-! ## Position splitting (`processAnimations`, BridgeServer.swift as quoted
in MOTION_SPEC_PROCESSING_GUIDE.md lines 586-631) -/

/-- Spring parameters as the Figma plugin sees them (all four present when
a custom object exists). -/
structure PluginSpringParams where
  stiffness : Rat
  damping : Rat
  dampingRatio : Rat
  mass : Rat
deriving DecidableEq, Repr

/-- The `spring` payload of a plugin-side easing. -/
structure PluginSpring where
  preset : String
  custom : Option PluginSpringParams
deriving DecidableEq, Repr

/-- Plugin-side easing (the JSON round-trip of the exporter's easing): the
`spring` payload is optional, mirroring the `a.spring?.` optional chaining
in `easingsMatch`; the cubic-bezier string is modelled by its 4 rounded
control numbers, which determine it. -/
inductive PluginEasing
  | linear
  | spring (s : Option PluginSpring)
  | cubicBezier (b : Rat × Rat × Rat × Rat)
deriving DecidableEq, Repr

/-- A plugin-side animation entry after position splitting: the fields the
splitter writes and the regrouper reads. -/
structure PluginAnim where
  property : String
  startValue : Rat
  endValue : Rat
  change : Rat
  timing : TimingInfo
  easing : PluginEasing
deriving DecidableEq, Repr

/-- A combined two-axis position animation as consumed by
`processAnimations` (a "position" entry whose start and end values are
2-element arrays). -/
structure PosInput where
  property : String
  startValue : Rat × Rat
  endValue : Rat × Rat
  timing : TimingInfo
  easing : PluginEasing
deriving DecidableEq, Repr

/-- The position-splitting step of `processAnimations`
(MOTION_SPEC_PROCESSING_GUIDE.md lines 587-623): an axis entry is created
only when the absolute change on that axis exceeds 0.5; timing and easing
are copied to each created entry. Entries failing the "position" name guard
are not split (their unchanged pass-through is outside this model). -/
def processPositionAnimation (a : PosInput) : List PluginAnim :=
  if jsToLower a.property = "position" then
    let changeX := a.endValue.1 - a.startValue.1
    let changeY := a.endValue.2 - a.startValue.2
    (if 1/2 < |changeX| then
      [⟨"Position X", a.startValue.1, a.endValue.1, changeX, a.timing, a.easing⟩]
     else []) ++
    (if 1/2 < |changeY| then
      [⟨"Position Y", a.startValue.2, a.endValue.2, changeY, a.timing, a.easing⟩]
     else [])
  else []

/-! ## Position regrouping (`groupPositionAnimations` / `easingsMatch`,
packages/figma-plugin/src/code.ts as quoted in
MOTION_SPEC_PROCESSING_GUIDE.md lines 641-690) -/

/-- `easingsMatch`: different types never match; springs match either by
all four custom parameters within 0.01 or, lacking customs, by preset name;
cubic-beziers match by exact string equality; linear easings always match. -/
def easingsMatch (a b : PluginEasing) : Bool :=
  match a, b with
  | PluginEasing.spring sa, PluginEasing.spring sb =>
    (match sa.bind (fun s => s.custom), sb.bind (fun s => s.custom) with
     | some ca, some cb =>
       decide (|ca.stiffness - cb.stiffness| < 1/100) &&
       decide (|ca.damping - cb.damping| < 1/100) &&
       decide (|ca.dampingRatio - cb.dampingRatio| < 1/100) &&
       decide (|ca.mass - cb.mass| < 1/100)
     | _, _ => (sa.map (fun s => s.preset)) == (sb.map (fun s => s.preset)))
  | PluginEasing.cubicBezier ba, PluginEasing.cubicBezier bb => ba == bb
  | PluginEasing.linear, PluginEasing.linear => true
  | _, _ => false

/-- An element of the regrouper's output: a lone animation or a merged
"Position X & Y" pair. -/
inductive GroupedItem
  | single (a : PluginAnim)
  | pair (x y : PluginAnim)
deriving DecidableEq, Repr

/-- The `find(a => a.property === name)` test: on a merged pair the JS
`property` access yields `undefined`, which never equals the name. -/
def isSingleNamed (nm : String) : GroupedItem → Bool
  | GroupedItem.single a => a.property == nm
  | GroupedItem.pair _ _ => false

/-- `groupPositionAnimations` (code.ts lines 1577-1616): if both a
"Position X" and a "Position Y" entry exist, their delays are exactly equal
and their easings match, return the merged pair followed by the other
animations; otherwise return the input unchanged. -/
def groupPositionAnimations (animations : List GroupedItem) : List GroupedItem :=
  match animations.find? (isSingleNamed "Position X"),
        animations.find? (isSingleNamed "Position Y") with
  | some (GroupedItem.single posX), some (GroupedItem.single posY) =>
    if posX.timing.delay = posY.timing.delay ∧ easingsMatch posX.easing posY.easing then
      GroupedItem.pair posX posY ::
        animations.filter (fun a =>
          !isSingleNamed "Position X" a && !isSingleNamed "Position Y" a)
    else animations
  | _, _ => animations

/-! ## Per-layer failure isolation (`buildMotionSpecData`) -/

/-- A processed layer in the failure-isolation skeleton of
`buildMotionSpecData`. -/
structure SkelLayerData (A : Type) where
  layerName : String
  animations : List A
  isFitToShape : Bool
deriving DecidableEq, Repr

/-- The inner property loop of `buildMotionSpecData` (lines 1608-1631): each
property is extracted inside its own try/catch; a property whose extraction
throws is dropped and the loop continues with the remaining properties. -/
def processProperties {P A : Type} (extractOne : P → Except String A)
    (props : List P) : List A :=
  match props with
  | [] => []
  | p :: rest =>
    match extractOne p with
    | Except.ok a => a :: processProperties extractOne rest
    | Except.error _ => processProperties extractOne rest

/-- The outer layer loop of `buildMotionSpecData` (lines 1579-1768), with
the per-layer work abstracted as fallible functions: `getProps` models the
body up to the property loop (a throw anywhere in it is the outer catch at
lines 1764-1767), `extractAnim` models the per-property extraction (caught
at lines 1627-1630). A layer is emitted when it has animations or carries
the fit-to-shape flag; a layer whose processing throws is skipped and the
loop continues. The parenting/children sub-branches do not affect this
error path and are not modelled. -/
def buildMotionSpecLayers {L P A : Type} (layerName : L → String)
    (fitToShape : L → Bool) (getProps : L → Except String (List P))
    (extractAnim : L → P → Except String A) (selectedLayers : List L) :
    List (SkelLayerData A) :=
  match selectedLayers with
  | [] => []
  | layer :: rest =>
    match getProps layer with
    | Except.error _ =>
      buildMotionSpecLayers layerName fitToShape getProps extractAnim rest
    | Except.ok props =>
      let anims := processProperties (extractAnim layer) props
      if 0 < anims.length ∨ fitToShape layer then
        ⟨layerName layer, anims, fitToShape layer⟩ ::
          buildMotionSpecLayers layerName fitToShape getProps extractAnim rest
      else buildMotionSpecLayers layerName fitToShape getProps extractAnim rest

/-- The inner per-marker test of the marker loop: the marker has a comment
whose parsed spring list contains a spring matching the property. -/
def markerMatches (mk : Marker) (matchName : String) : Bool :=
  match mk.springs with
  | some springs => (findSpringForProperty springs matchName).isSome
  | none => false

/-- The per-layer outcome of the loop body of `buildMotionSpecData`:
`none` when the layer's processing throws or it ends up with no animations
and no fit-to-shape flag, otherwise its emitted record. -/
def layerSummary {L P A : Type} (layerName : L → String) (fitToShape : L → Bool)
    (getProps : L → Except String (List P)) (extractAnim : L → P → Except String A)
    (l : L) : Option (SkelLayerData A) :=
  match getProps l with
  | Except.error _ => none
  | Except.ok props =>
    if 0 < (processProperties (extractAnim l) props).length ∨ fitToShape l then
      some ⟨layerName l, processProperties (extractAnim l) props, fitToShape l⟩
    else none

/-! ## Claim theorems -/

/-- C2: the claim's independent-index bucket matching is refuted by a 750x1688
composition: width 750 is within 5 of a 2x-iOS width entry and height 1688 is
within 5 of a different-index 2x-iOS height entry, so the claim returns 2,
but the code requires the same index and falls through to the default 1. -/
theorem C2_counterexample :
    detectCompositionMultiplier 0 750 1688 = 1 ∧ claimMultiplier 750 1688 = 2 := by
  constructor <;> decide

/-- C2 (amended): a bucket matches exactly when for SOME SINGLE index the
width is within ±5 of the bucket's width entry and the height within ±5 of
the height entry at that same index (the pairing `List.zip` makes the shared
index explicit); the first matching bucket in table order gives the
multiplier, and with no match the multiplier is 1. -/
theorem C2_same_index_match (width height : Int) :
    detectCompositionMultiplier 0 width height =
      match resolutionPatterns.find?
          (fun p => decide (∃ wh ∈ p.widths.zip p.heights,
            |width - wh.1| ≤ 5 ∧ |height - wh.2| ≤ 5)) with
      | some p => p.multiplier
      | none => 1 := by
  have hpred : ∀ p : ResolutionPattern,
      patternMatches width height p =
        decide (∃ wh ∈ p.widths.zip p.heights,
          |width - wh.1| ≤ 5 ∧ |height - wh.2| ≤ 5) := by
    intro p
    apply Bool.eq_iff_iff.mpr
    rw [patternMatches, List.any_eq_true, decide_eq_true_eq]
    constructor
    · rintro ⟨wh, hmem, hcond⟩
      rw [Bool.and_eq_true, decide_eq_true_eq, decide_eq_true_eq] at hcond
      exact ⟨wh, hmem, hcond⟩
    · rintro ⟨wh, hmem, h1, h2⟩
      refine ⟨wh, hmem, ?_⟩
      rw [Bool.and_eq_true, decide_eq_true_eq, decide_eq_true_eq]
      exact ⟨h1, h2⟩
  simp only [detectCompositionMultiplier, if_neg (lt_irrefl 0)]
  rw [show (patternMatches width height) =
      (fun p => decide (∃ wh ∈ p.widths.zip p.heights,
        |width - wh.1| ≤ 5 ∧ |height - wh.2| ≤ 5)) from funext hpred]

/-- C3: for every composition and any override setting in the documented
range 0-4, the detected multiplier is one of 1, 2, 3, 4, and a positive
override is returned verbatim regardless of the dimensions. -/
theorem C3_multiplier_range (override : Nat) (width height : Int)
    (hov : override ≤ 4) :
    (detectCompositionMultiplier override width height = 1 ∨
     detectCompositionMultiplier override width height = 2 ∨
     detectCompositionMultiplier override width height = 3 ∨
     detectCompositionMultiplier override width height = 4) ∧
    (0 < override → detectCompositionMultiplier override width height = override) := by
  by_cases hpos : 0 < override
  · have hval : detectCompositionMultiplier override width height = override := by
      simp [detectCompositionMultiplier, hpos]
    refine ⟨?_, fun _ => hval⟩
    rw [hval]
    omega
  · have hz : override = 0 := by omega
    subst hz
    refine ⟨?_, fun h => absurd h (by omega)⟩
    simp only [detectCompositionMultiplier, if_neg (lt_irrefl 0)]
    cases hfind : resolutionPatterns.find? (patternMatches width height) with
    | none => simp
    | some p =>
      have hmem : p ∈ resolutionPatterns := List.mem_of_find?_eq_some hfind
      have hm : p.multiplier = 1 ∨ p.multiplier = 2 ∨ p.multiplier = 3 := by
        simp only [resolutionPatterns] at hmem
        fin_cases hmem <;> simp
      show p.multiplier = 1 ∨ p.multiplier = 2 ∨ p.multiplier = 3 ∨ p.multiplier = 4
      omega

/-- Witness for C3 at override 2 on a 100x200 composition. -/
theorem C3_multiplier_range_witness :
    ((detectCompositionMultiplier 2 100 200 = 1 ∨
      detectCompositionMultiplier 2 100 200 = 2 ∨
      detectCompositionMultiplier 2 100 200 = 3 ∨
      detectCompositionMultiplier 2 100 200 = 4) ∧
     (0 < 2 → detectCompositionMultiplier 2 100 200 = 2)) :=
  C3_multiplier_range 2 100 200 (by decide)

/-- C9: the baked-spring heuristic is unreachable - the source guards the
branch with a literal `false &&` - so no extracted animation ever carries an
easing with source "baked", for any layer, property, composition and
multiplier. -/
theorem C9_no_baked_source (layer : AELayer) (propInfo : PropInfo)
    (comp : CompInfo) (multiplier : Rat) :
    (extractAnimationData layer propInfo comp multiplier).easing.sourceTag ≠ some "baked" := by
  show (easingOf layer propInfo.property propInfo.matchName).sourceTag ≠ some "baked"
  simp only [easingOf]
  split
  · rename_i e heq
    split at heq
    · rcases Option.map_eq_some'.mp heq with ⟨matched, _, rfl⟩
      simp [Easing.sourceTag]
    · exact absurd heq (Option.noConfusion)
  · rw [if_neg (fun hc => hc.1.elim)]
    split
    · simp [Easing.sourceTag]
    · simp [Easing.sourceTag]

/-- Any successful association-list lookup returns one of the stored
values. -/
theorem lookup_mem_map_snd {α β : Type} [BEq α] (l : List (α × β)) (a : α)
    (b : β) (h : l.lookup a = some b) : b ∈ l.map Prod.snd := by
  induction l with
  | nil => simp [List.lookup] at h
  | cons kv rest ih =>
    obtain ⟨k, v⟩ := kv
    simp only [List.lookup] at h
    split at h
    · injection h with h
      subst h
      simp
    · exact List.mem_cons_of_mem _ (ih h)

/-- Every parameter stored in the `SPRING_PRESETS` table is nonzero. -/
theorem preset_fields_ne_zero (p : SpringPreset)
    (hp : p ∈ SPRING_PRESETS.map Prod.snd) :
    p.stiffness ≠ 0 ∧ p.damping ≠ 0 ∧ p.dampingRatio ≠ 0 ∧ p.mass ≠ 0 := by
  simp only [SPRING_PRESETS, List.map] at hp
  fin_cases hp <;> refine ⟨?_, ?_, ?_, ?_⟩ <;> norm_num

/-- The backfill `if (!custom.field) custom.field = preset.field` never
leaves a zero when the preset value is nonzero. -/
theorem truthy_branch_ne_zero (o : Option Rat) (d : Rat) (hd : d ≠ 0) :
    (if truthyNum o then o else some d) ≠ some 0 := by
  cases o with
  | none => simp [truthyNum, hd]
  | some v =>
    by_cases hv : v = 0
    · subst hv
      simp [truthyNum, hd]
    · simp [truthyNum, hv]

/-- C10: for a marker spring whose preset name is in `SPRING_PRESETS`, the
backfill uses JS truthiness, so a custom parameter recorded as 0 is
replaced by the preset-table value, and no zero-valued custom parameter
survives into the resolved easing. -/
theorem C10_truthiness_backfill (m : SpringData) (p : SpringPreset)
    (hp : SPRING_PRESETS.lookup m.preset = some p) :
    ∃ c : SpringCustom, (resolveSpringData m).custom = some c ∧
      ((m.custom.getD ⟨none, none, none, none⟩).stiffness = some 0 →
        c.stiffness = some p.stiffness) ∧
      ((m.custom.getD ⟨none, none, none, none⟩).damping = some 0 →
        c.damping = some p.damping) ∧
      ((m.custom.getD ⟨none, none, none, none⟩).dampingRatio = some 0 →
        c.dampingRatio = some p.dampingRatio) ∧
      ((m.custom.getD ⟨none, none, none, none⟩).mass = some 0 →
        c.mass = some p.mass) ∧
      c.stiffness ≠ some 0 ∧ c.damping ≠ some 0 ∧
      c.dampingRatio ≠ some 0 ∧ c.mass ≠ some 0 := by
  have hne := preset_fields_ne_zero p (lookup_mem_map_snd _ _ _ hp)
  unfold resolveSpringData
  rw [hp]
  refine ⟨_, rfl, ?_, ?_, ?_, ?_, ?_, ?_, ?_, ?_⟩
  · intro h0
    simp [h0, truthyNum]
  · intro h0
    simp [h0, truthyNum]
  · intro h0
    simp [h0, truthyNum]
  · intro h0
    simp [h0, truthyNum]
  · exact truthy_branch_ne_zero _ _ hne.1
  · exact truthy_branch_ne_zero _ _ hne.2.1
  · exact truthy_branch_ne_zero _ _ hne.2.2.1
  · exact truthy_branch_ne_zero _ _ hne.2.2.2

/-- Witness for C10: a "Standard Spring" marker whose custom stiffness and
mass are recorded as 0 has them backfilled with 175 and 1. -/
theorem C10_truthiness_backfill_witness :
    ∃ c : SpringCustom,
      (resolveSpringData ⟨"Standard Spring",
        some ⟨some 0, some 20, none, some 0⟩, none⟩).custom = some c ∧
      (((⟨"Standard Spring", some ⟨some 0, some 20, none, some 0⟩, none⟩ :
          SpringData).custom.getD ⟨none, none, none, none⟩).stiffness = some 0 →
        c.stiffness = some (175 : Rat)) ∧
      (((⟨"Standard Spring", some ⟨some 0, some 20, none, some 0⟩, none⟩ :
          SpringData).custom.getD ⟨none, none, none, none⟩).damping = some 0 →
        c.damping = some (26.46 : Rat)) ∧
      (((⟨"Standard Spring", some ⟨some 0, some 20, none, some 0⟩, none⟩ :
          SpringData).custom.getD ⟨none, none, none, none⟩).dampingRatio = some 0 →
        c.dampingRatio = some (1 : Rat)) ∧
      (((⟨"Standard Spring", some ⟨some 0, some 20, none, some 0⟩, none⟩ :
          SpringData).custom.getD ⟨none, none, none, none⟩).mass = some 0 →
        c.mass = some (1 : Rat)) ∧
      c.stiffness ≠ some 0 ∧ c.damping ≠ some 0 ∧
      c.dampingRatio ≠ some 0 ∧ c.mass ≠ some 0 :=
  C10_truthiness_backfill
    ⟨"Standard Spring", some ⟨some 0, some 20, none, some 0⟩, none⟩
    ⟨175, 26.46, 1, 1⟩ rfl

/-- C6: with at least two selected keyframes, delay is the first selected
keyframe time minus the work-area start and duration is the last minus the
first selected keyframe time, both in milliseconds with sub-0.5ms values
snapped to 0 and everything else given to `jsRound`, which rounds to a
nearest integer (it never errs by more than half a millisecond). -/
theorem C6_timing (layer : AELayer) (propInfo : PropInfo) (comp : CompInfo)
    (multiplier : Rat)
    (h : 2 ≤ (selectedTimesOf propInfo.property).length) :
    ((extractAnimationData layer propInfo comp multiplier).timing.delay =
      (if |((selectedTimesOf propInfo.property).headD 0 - comp.workAreaStart) * 1000| < 1/2
       then 0
       else jsRound (((selectedTimesOf propInfo.property).headD 0 - comp.workAreaStart) * 1000))) ∧
    ((extractAnimationData layer propInfo comp multiplier).timing.duration =
      (if |((selectedTimesOf propInfo.property).getLastD 0 -
            (selectedTimesOf propInfo.property).headD 0) * 1000| < 1/2
       then 0
       else jsRound (((selectedTimesOf propInfo.property).getLastD 0 -
            (selectedTimesOf propInfo.property).headD 0) * 1000))) ∧
    (∀ q : Rat, |(jsRound q : Rat) - q| ≤ 1/2) := by
  refine ⟨?_, ?_, ?_⟩
  · show (timingOf propInfo.property comp.workAreaStart).delay = _
    simp only [timingOf, if_pos h, roundMs]
  · show (timingOf propInfo.property comp.workAreaStart).duration = _
    simp only [timingOf, if_pos h, roundMs]
  · intro q
    simp only [jsRound]
    rw [abs_le]
    constructor
    · have hlt := Int.lt_floor_add_one (q + 1/2)
      linarith
    · have hle := Int.floor_le (q + 1/2)
      linarith

/-- Witness for C6 on a two-keyframe opacity property selected from 0.25s
to 1s with work area starting at 0.1s. -/
theorem C6_timing_witness :
    ((extractAnimationData ⟨[]⟩
        ⟨⟨"Opacity", true,
          [⟨true, 1/4, JValue.num 0, InterpKind.linear, InterpKind.linear, [], []⟩,
           ⟨true, 1, JValue.num 100, InterpKind.linear, InterpKind.linear, [], []⟩]⟩,
         "Opacity", "ADBE Opacity"⟩ ⟨1/10⟩ 1).timing.delay =
      (if |((selectedTimesOf ⟨"Opacity", true,
          [⟨true, 1/4, JValue.num 0, InterpKind.linear, InterpKind.linear, [], []⟩,
           ⟨true, 1, JValue.num 100, InterpKind.linear, InterpKind.linear, [], []⟩]⟩).headD 0 - (1/10 : Rat)) * 1000| < 1/2
       then 0
       else jsRound (((selectedTimesOf ⟨"Opacity", true,
          [⟨true, 1/4, JValue.num 0, InterpKind.linear, InterpKind.linear, [], []⟩,
           ⟨true, 1, JValue.num 100, InterpKind.linear, InterpKind.linear, [], []⟩]⟩).headD 0 - (1/10 : Rat)) * 1000))) ∧
    ((extractAnimationData ⟨[]⟩
        ⟨⟨"Opacity", true,
          [⟨true, 1/4, JValue.num 0, InterpKind.linear, InterpKind.linear, [], []⟩,
           ⟨true, 1, JValue.num 100, InterpKind.linear, InterpKind.linear, [], []⟩]⟩,
         "Opacity", "ADBE Opacity"⟩ ⟨1/10⟩ 1).timing.duration =
      (if |((selectedTimesOf ⟨"Opacity", true,
          [⟨true, 1/4, JValue.num 0, InterpKind.linear, InterpKind.linear, [], []⟩,
           ⟨true, 1, JValue.num 100, InterpKind.linear, InterpKind.linear, [], []⟩]⟩).getLastD 0 -
            (selectedTimesOf ⟨"Opacity", true,
          [⟨true, 1/4, JValue.num 0, InterpKind.linear, InterpKind.linear, [], []⟩,
           ⟨true, 1, JValue.num 100, InterpKind.linear, InterpKind.linear, [], []⟩]⟩).headD 0) * 1000| < 1/2
       then 0
       else jsRound (((selectedTimesOf ⟨"Opacity", true,
          [⟨true, 1/4, JValue.num 0, InterpKind.linear, InterpKind.linear, [], []⟩,
           ⟨true, 1, JValue.num 100, InterpKind.linear, InterpKind.linear, [], []⟩]⟩).getLastD 0 -
            (selectedTimesOf ⟨"Opacity", true,
          [⟨true, 1/4, JValue.num 0, InterpKind.linear, InterpKind.linear, [], []⟩,
           ⟨true, 1, JValue.num 100, InterpKind.linear, InterpKind.linear, [], []⟩]⟩).headD 0) * 1000))) ∧
    (∀ q : Rat, |(jsRound q : Rat) - q| ≤ 1/2) :=
  C6_timing ⟨[]⟩
    ⟨⟨"Opacity", true,
      [⟨true, 1/4, JValue.num 0, InterpKind.linear, InterpKind.linear, [], []⟩,
       ⟨true, 1, JValue.num 100, InterpKind.linear, InterpKind.linear, [], []⟩]⟩,
     "Opacity", "ADBE Opacity"⟩ ⟨1/10⟩ 1 (by decide)

/-- C5: for a combined two-axis position animation, a "Position X" entry is
produced exactly when the absolute change on the X axis exceeds 0.5 pixels;
when the change is at most 0.5 no entry with that property name exists in
the output at all (not even a zero-change one); symmetrically for Y. -/
theorem C5_axis_threshold (a : PosInput) (hname : jsToLower a.property = "position") :
    ((∃ x ∈ processPositionAnimation a, x.property = "Position X") ↔
       1/2 < |a.endValue.1 - a.startValue.1|) ∧
    ((∃ y ∈ processPositionAnimation a, y.property = "Position Y") ↔
       1/2 < |a.endValue.2 - a.startValue.2|) ∧
    (|a.endValue.1 - a.startValue.1| ≤ 1/2 →
       ∀ x ∈ processPositionAnimation a, x.property ≠ "Position X") ∧
    (|a.endValue.2 - a.startValue.2| ≤ 1/2 →
       ∀ y ∈ processPositionAnimation a, y.property ≠ "Position Y") := by
  have hmem : ∀ x : PluginAnim, x ∈ processPositionAnimation a ↔
      (1/2 < |a.endValue.1 - a.startValue.1| ∧
        x = ⟨"Position X", a.startValue.1, a.endValue.1,
              a.endValue.1 - a.startValue.1, a.timing, a.easing⟩) ∨
      (1/2 < |a.endValue.2 - a.startValue.2| ∧
        x = ⟨"Position Y", a.startValue.2, a.endValue.2,
              a.endValue.2 - a.startValue.2, a.timing, a.easing⟩) := by
    intro x
    rw [processPositionAnimation, if_pos hname]
    constructor
    · intro hx
      rcases List.mem_append.mp hx with h1 | h2
      · left
        by_cases hc : 1/2 < |a.endValue.1 - a.startValue.1|
        · rw [if_pos hc] at h1
          exact ⟨hc, List.mem_singleton.mp h1⟩
        · rw [if_neg hc] at h1
          exact absurd h1 (List.not_mem_nil x)
      · right
        by_cases hc : 1/2 < |a.endValue.2 - a.startValue.2|
        · rw [if_pos hc] at h2
          exact ⟨hc, List.mem_singleton.mp h2⟩
        · rw [if_neg hc] at h2
          exact absurd h2 (List.not_mem_nil x)
    · rintro (⟨hc, rfl⟩ | ⟨hc, rfl⟩)
      · refine List.mem_append.mpr (Or.inl ?_)
        rw [if_pos hc]
        exact List.mem_singleton.mpr rfl
      · refine List.mem_append.mpr (Or.inr ?_)
        rw [if_pos hc]
        exact List.mem_singleton.mpr rfl
  refine ⟨?_, ?_, ?_, ?_⟩
  · constructor
    · rintro ⟨x, hx, hprop⟩
      rcases (hmem x).mp hx with ⟨hc, rfl⟩ | ⟨hc, rfl⟩
      · exact hc
      · simp at hprop
    · intro hc
      exact ⟨_, (hmem _).mpr (Or.inl ⟨hc, rfl⟩), rfl⟩
  · constructor
    · rintro ⟨y, hy, hprop⟩
      rcases (hmem y).mp hy with ⟨hc, rfl⟩ | ⟨hc, rfl⟩
      · simp at hprop
      · exact hc
    · intro hc
      exact ⟨_, (hmem _).mpr (Or.inr ⟨hc, rfl⟩), rfl⟩
  · intro hle x hx
    rcases (hmem x).mp hx with ⟨hc, rfl⟩ | ⟨hc, rfl⟩
    · exact absurd hc (not_lt.mpr hle)
    · simp
  · intro hle y hy
    rcases (hmem y).mp hy with ⟨hc, rfl⟩ | ⟨hc, rfl⟩
    · simp
    · exact absurd hc (not_lt.mpr hle)

/-- Witness for C5: a position moving 10px in X and not in Y produces
exactly a "Position X" entry and no "Position Y" entry. -/
theorem C5_axis_threshold_witness :
    ((∃ x ∈ processPositionAnimation ⟨"Position", (0, 0), (10, 0), ⟨0, 0⟩, PluginEasing.linear⟩,
        x.property = "Position X") ↔ (1/2 : Rat) < |(10 : Rat) - 0|) ∧
    ((∃ y ∈ processPositionAnimation ⟨"Position", (0, 0), (10, 0), ⟨0, 0⟩, PluginEasing.linear⟩,
        y.property = "Position Y") ↔ (1/2 : Rat) < |(0 : Rat) - 0|) ∧
    (|(10 : Rat) - 0| ≤ 1/2 →
      ∀ x ∈ processPositionAnimation ⟨"Position", (0, 0), (10, 0), ⟨0, 0⟩, PluginEasing.linear⟩,
        x.property ≠ "Position X") ∧
    (|(0 : Rat) - 0| ≤ 1/2 →
      ∀ y ∈ processPositionAnimation ⟨"Position", (0, 0), (10, 0), ⟨0, 0⟩, PluginEasing.linear⟩,
        y.property ≠ "Position Y") :=
  C5_axis_threshold ⟨"Position", (0, 0), (10, 0), ⟨0, 0⟩, PluginEasing.linear⟩ (by decide)

/-- The last element of a two-or-more-element list, as the source's
`selectedKeyframes[selectedKeyframes.length - 1]` computes it. -/
theorem getLast?_cons_eq {α : Type} (a b : α) (l : List α) :
    (a :: b :: l).getLast? = some ((b :: l).getLastD a) := by
  rw [List.getLast?_cons_cons, List.getLastD_eq_getLast?]
  cases h : (b :: l).getLast? with
  | none => simp at h
  | some x => rfl

/-- The combined-position branch always reports type "position". -/
theorem positionValues_type (m : Rat) (k e : AEKey) :
    (positionValues m k e).type = "position" := by
  cases hk : k.value <;> cases he : e.value <;> simp [positionValues, hk, he, emptyPropValues]

/-- The scale branch always reports type "scale". -/
theorem scaleValues_type (k e : AEKey) : (scaleValues k e).type = "scale" := by
  cases hk : k.value <;> cases he : e.value <;> simp [scaleValues, hk, he, emptyPropValues]

/-- The scaled scalar branches report their type tag. -/
theorem scaledScalarValues_type (t : String) (m : Rat) (k e : AEKey) :
    (scaledScalarValues t m k e).type = t := by
  cases hk : k.value <;> cases he : e.value <;>
    simp [scaledScalarValues, hk, he, emptyPropValues]

/-- C4 counterexample: an opacity property whose first selected keyframe
value is 50.7 keeps the raw non-integer 50.7 in `startValue` (at any
multiplier - here 3 - showing it is also never divided), refuting the
claim that startValue is rounded to an integer percent. -/
theorem C4_counterexample :
    (extractPropertyValues ⟨"Opacity", true,
      [⟨true, 0, JValue.num (507/10), InterpKind.linear, InterpKind.linear, [], []⟩,
       ⟨true, 1, JValue.num (802/10), InterpKind.linear, InterpKind.linear, [], []⟩]⟩
      3).startValue = some (JValue.num (507/10)) ∧
    extractPropertyValues ⟨"Opacity", true,
      [⟨true, 0, JValue.num (507/10), InterpKind.linear, InterpKind.linear, [], []⟩,
       ⟨true, 1, JValue.num (802/10), InterpKind.linear, InterpKind.linear, [], []⟩]⟩ 3 =
    extractPropertyValues ⟨"Opacity", true,
      [⟨true, 0, JValue.num (507/10), InterpKind.linear, InterpKind.linear, [], []⟩,
       ⟨true, 1, JValue.num (802/10), InterpKind.linear, InterpKind.linear, [], []⟩]⟩ 1 ∧
    (507/10 : Rat) ≠ ((jsRound (507/10 : Rat) : Int) : Rat) := by
  refine ⟨rfl, rfl, ?_⟩
  have hfl : jsRound (507/10 : Rat) = 51 := by
    rw [jsRound, Int.floor_eq_iff]
    constructor <;> norm_num
  rw [hfl]
  norm_num

/-- C4 (amended): properties classified as scale, opacity or rotation are
never divided by the resolution multiplier - the extracted values are
completely independent of it - and for opacity/rotation the
startValue/endValue fields hold the raw first/last selected keyframe
values, unrounded (only the omitted display strings round them; the scale
branch rounds nowhere at all). Scaling division happens only in the
position, corner-radius and dimensional branches. -/
theorem C4_unscaled_raw (prop : AEProp) (m : Rat)
    (htype : (extractPropertyValues prop 1).type = "scale" ∨
             (extractPropertyValues prop 1).type = "opacity" ∨
             (extractPropertyValues prop 1).type = "rotation") :
    extractPropertyValues prop m = extractPropertyValues prop 1 ∧
    (((extractPropertyValues prop 1).type = "opacity" ∨
      (extractPropertyValues prop 1).type = "rotation") →
      (extractPropertyValues prop 1).startValue =
        ((prop.keys.filter (fun k => k.selected)).head?.map (fun k => k.value)) ∧
      (extractPropertyValues prop 1).endValue =
        ((prop.keys.filter (fun k => k.selected)).getLast?.map (fun k => k.value))) := by
  cases hsel : prop.keys.filter (fun k => k.selected) with
  | nil =>
    rw [extractPropertyValues, hsel] at htype
    simp [emptyPropValues] at htype
  | cons k1 rest =>
    cases rest with
    | nil =>
      rw [extractPropertyValues, hsel] at htype
      simp [emptyPropValues] at htype
    | cons k2 rest2 =>
      cases hP : containsSub prop.name "Position" with
      | true =>
        rw [extractPropertyValues, hsel] at htype
        simp only [hP, if_true, positionValues_type] at htype
        simp at htype
      | false =>
      cases hS : containsSub prop.name "Scale" with
      | true =>
        refine ⟨?_, ?_⟩
        · rw [extractPropertyValues, extractPropertyValues, hsel]
          simp [hP, hS]
        · intro h2
          rw [extractPropertyValues, hsel] at h2
          simp only [hP, hS, if_true, Bool.false_eq_true, if_false,
            scaleValues_type] at h2
          simp at h2
      | false =>
      cases hO : (containsSub prop.name "Opacity" || containsSub prop.name "opacity") with
      | true =>
        refine ⟨?_, fun _ => ?_⟩
        · rw [extractPropertyValues, extractPropertyValues, hsel]
          simp [hP, hS, hO]
        · rw [extractPropertyValues, hsel]
          simp only [hP, hS, hO, Bool.false_eq_true, if_false, if_true]
          constructor
          · simp [rawScalarValues]
          · simp only [rawScalarValues, getLast?_cons_eq]
            cases hgl : (k2 :: rest2).getLast? with
            | none => simp at hgl
            | some x => simp [hgl]
      | false =>
      cases hR : (containsSub prop.name "Rotation" || containsSub prop.name "rotation") with
      | true =>
        refine ⟨?_, fun _ => ?_⟩
        · rw [extractPropertyValues, extractPropertyValues, hsel]
          simp [hP, hS, hO, hR]
        · rw [extractPropertyValues, hsel]
          simp only [hP, hS, hO, hR, Bool.false_eq_true, if_false, if_true]
          constructor
          · simp [rawScalarValues]
          · simp only [rawScalarValues, getLast?_cons_eq]
            cases hgl : (k2 :: rest2).getLast? with
            | none => simp at hgl
            | some x => simp [hgl]
      | false =>
      cases hC : isCornerName prop.name with
      | true =>
        rw [extractPropertyValues, hsel] at htype
        simp only [hP, hS, hO, hR, hC, Bool.false_eq_true, if_false, if_true,
          scaledScalarValues_type] at htype
        simp at htype
      | false =>
      cases hD : isDimensionalName prop.name with
      | true =>
        rw [extractPropertyValues, hsel] at htype
        simp only [hP, hS, hO, hR, hC, hD, Bool.false_eq_true, if_false, if_true,
          scaledScalarValues_type] at htype
        simp at htype
      | false =>
        rw [extractPropertyValues, hsel] at htype
        simp only [hP, hS, hO, hR, hC, hD, Bool.false_eq_true, if_false,
          genericValues] at htype
        simp at htype

/-- Witness for C4 on the 50.7 to 80.2 opacity property at multiplier 3. -/
theorem C4_unscaled_raw_witness :
    extractPropertyValues ⟨"Opacity", true,
      [⟨true, 0, JValue.num (507/10), InterpKind.linear, InterpKind.linear, [], []⟩,
       ⟨true, 1, JValue.num (802/10), InterpKind.linear, InterpKind.linear, [], []⟩]⟩ 3 =
    extractPropertyValues ⟨"Opacity", true,
      [⟨true, 0, JValue.num (507/10), InterpKind.linear, InterpKind.linear, [], []⟩,
       ⟨true, 1, JValue.num (802/10), InterpKind.linear, InterpKind.linear, [], []⟩]⟩ 1 ∧
    (((extractPropertyValues ⟨"Opacity", true,
      [⟨true, 0, JValue.num (507/10), InterpKind.linear, InterpKind.linear, [], []⟩,
       ⟨true, 1, JValue.num (802/10), InterpKind.linear, InterpKind.linear, [], []⟩]⟩ 1).type = "opacity" ∨
      (extractPropertyValues ⟨"Opacity", true,
      [⟨true, 0, JValue.num (507/10), InterpKind.linear, InterpKind.linear, [], []⟩,
       ⟨true, 1, JValue.num (802/10), InterpKind.linear, InterpKind.linear, [], []⟩]⟩ 1).type = "rotation") →
      (extractPropertyValues ⟨"Opacity", true,
      [⟨true, 0, JValue.num (507/10), InterpKind.linear, InterpKind.linear, [], []⟩,
       ⟨true, 1, JValue.num (802/10), InterpKind.linear, InterpKind.linear, [], []⟩]⟩ 1).startValue =
        (((⟨"Opacity", true,
      [⟨true, 0, JValue.num (507/10), InterpKind.linear, InterpKind.linear, [], []⟩,
       ⟨true, 1, JValue.num (802/10), InterpKind.linear, InterpKind.linear, [], []⟩]⟩ : AEProp).keys.filter
          (fun k => k.selected)).head?.map (fun k => k.value)) ∧
      (extractPropertyValues ⟨"Opacity", true,
      [⟨true, 0, JValue.num (507/10), InterpKind.linear, InterpKind.linear, [], []⟩,
       ⟨true, 1, JValue.num (802/10), InterpKind.linear, InterpKind.linear, [], []⟩]⟩ 1).endValue =
        (((⟨"Opacity", true,
      [⟨true, 0, JValue.num (507/10), InterpKind.linear, InterpKind.linear, [], []⟩,
       ⟨true, 1, JValue.num (802/10), InterpKind.linear, InterpKind.linear, [], []⟩]⟩ : AEProp).keys.filter
          (fun k => k.selected)).getLast?.map (fun k => k.value))) :=
  C4_unscaled_raw ⟨"Opacity", true,
      [⟨true, 0, JValue.num (507/10), InterpKind.linear, InterpKind.linear, [], []⟩,
       ⟨true, 1, JValue.num (802/10), InterpKind.linear, InterpKind.linear, [], []⟩]⟩ 3
    (Or.inr (Or.inl rfl))

/-- The regroup step either returns its input unchanged or merges the first
"Position X" single with the first "Position Y" single, and it merges only
when their delays are exactly equal and their easings match. -/
theorem groupPositionAnimations_cases (l : List GroupedItem) :
    groupPositionAnimations l = l ∨
    ∃ px py : PluginAnim,
      l.find? (isSingleNamed "Position X") = some (GroupedItem.single px) ∧
      l.find? (isSingleNamed "Position Y") = some (GroupedItem.single py) ∧
      (px.timing.delay = py.timing.delay ∧ easingsMatch px.easing py.easing = true) ∧
      groupPositionAnimations l =
        GroupedItem.pair px py :: l.filter (fun a =>
          !isSingleNamed "Position X" a && !isSingleNamed "Position Y" a) := by
  cases hfx : l.find? (isSingleNamed "Position X") with
  | none =>
    left
    rw [groupPositionAnimations, hfx]
  | some g =>
    cases g with
    | pair a b =>
      left
      rw [groupPositionAnimations, hfx]
    | single px =>
      cases hfy : l.find? (isSingleNamed "Position Y") with
      | none =>
        left
        rw [groupPositionAnimations, hfx, hfy]
      | some g2 =>
        cases g2 with
        | pair a b =>
          left
          rw [groupPositionAnimations, hfx, hfy]
        | single py =>
          by_cases hcond : px.timing.delay = py.timing.delay ∧
              easingsMatch px.easing py.easing = true
          · right
            refine ⟨px, py, rfl, rfl, hcond, ?_⟩
            simp only [groupPositionAnimations, hfx, hfy]
            rw [if_pos hcond]
          · left
            simp only [groupPositionAnimations, hfx, hfy]
            rw [if_neg hcond]

/-- After a merge, no "Position X" or "Position Y" single remains to find. -/
theorem find?_after_merge (px py : PluginAnim) (l : List GroupedItem) (nm : String) :
    (GroupedItem.pair px py :: l.filter (fun a =>
        !isSingleNamed "Position X" a && !isSingleNamed "Position Y" a)).find?
      (isSingleNamed nm) = none ∨ nm ≠ "Position X" ∧ nm ≠ "Position Y" := by
  by_cases hnm : nm = "Position X" ∨ nm = "Position Y"
  · left
    apply List.find?_eq_none.mpr
    intro g hg
    rcases List.mem_cons.mp hg with rfl | hgf
    · simp [isSingleNamed]
    · have hkeep := List.of_mem_filter hgf
      rw [Bool.and_eq_true, Bool.not_eq_true', Bool.not_eq_true'] at hkeep
      rcases hnm with rfl | rfl
      · simp [hkeep.1]
      · simp [hkeep.2]
  · right
    exact ⟨fun h => hnm (Or.inl h), fun h => hnm (Or.inr h)⟩

/-- C7: regrouping is idempotent (applying the regroup step to regrouped
output changes nothing), and - given one "Position X" entry and one
"Position Y" entry - merging is order-insensitive: the same merged pair
results whichever of the two comes first; and a merge happens only when the
delays are exactly equal and the easings match within the stated
tolerances (`easingsMatch`). -/
theorem C7_regroup (x y : PluginAnim) (rest : List GroupedItem)
    (hx : x.property = "Position X") (hy : y.property = "Position Y")
    (hrest : ∀ g ∈ rest, isSingleNamed "Position X" g = false ∧
      isSingleNamed "Position Y" g = false) :
    (∀ l : List GroupedItem,
      groupPositionAnimations (groupPositionAnimations l) = groupPositionAnimations l) ∧
    (x.timing.delay = y.timing.delay ∧ easingsMatch x.easing y.easing = true →
      groupPositionAnimations (GroupedItem.single x :: GroupedItem.single y :: rest) =
        GroupedItem.pair x y :: rest ∧
      groupPositionAnimations (GroupedItem.single y :: GroupedItem.single x :: rest) =
        GroupedItem.pair x y :: rest) ∧
    (∀ l : List GroupedItem, groupPositionAnimations l ≠ l →
      ∃ px py : PluginAnim,
        l.find? (isSingleNamed "Position X") = some (GroupedItem.single px) ∧
        l.find? (isSingleNamed "Position Y") = some (GroupedItem.single py) ∧
        px.timing.delay = py.timing.delay ∧ easingsMatch px.easing py.easing = true) := by
  have hxX : isSingleNamed "Position X" (GroupedItem.single x) = true := by
    simp [isSingleNamed, hx]
  have hxY : isSingleNamed "Position Y" (GroupedItem.single x) = false := by
    simp [isSingleNamed, hx]
  have hyX : isSingleNamed "Position X" (GroupedItem.single y) = false := by
    simp [isSingleNamed, hy]
  have hyY : isSingleNamed "Position Y" (GroupedItem.single y) = true := by
    simp [isSingleNamed, hy]
  refine ⟨?_, ?_, ?_⟩
  · intro l
    rcases groupPositionAnimations_cases l with heq | ⟨px, py, hfx, hfy, hcond, hres⟩
    · simp only [heq]
    · rw [hres]
      rcases find?_after_merge px py l "Position X" with hnone | ⟨habs, _⟩
      · rw [groupPositionAnimations, hnone]
      · exact absurd rfl habs
  · intro hcond
    have hfilter : (GroupedItem.single x :: GroupedItem.single y :: rest).filter
        (fun a => !isSingleNamed "Position X" a && !isSingleNamed "Position Y" a) = rest := by
      rw [List.filter_cons_of_neg, List.filter_cons_of_neg]
      · apply List.filter_eq_self.mpr
        intro g hg
        rw [Bool.and_eq_true, Bool.not_eq_true', Bool.not_eq_true']
        exact ⟨(hrest g hg).1, (hrest g hg).2⟩
      · simp [hyY]
      · simp [hxX]
    have hfilter2 : (GroupedItem.single y :: GroupedItem.single x :: rest).filter
        (fun a => !isSingleNamed "Position X" a && !isSingleNamed "Position Y" a) = rest := by
      rw [List.filter_cons_of_neg, List.filter_cons_of_neg]
      · apply List.filter_eq_self.mpr
        intro g hg
        rw [Bool.and_eq_true, Bool.not_eq_true', Bool.not_eq_true']
        exact ⟨(hrest g hg).1, (hrest g hg).2⟩
      · simp [hxX]
      · simp [hyY]
    constructor
    · have hfx1 : (GroupedItem.single x :: GroupedItem.single y :: rest).find?
          (isSingleNamed "Position X") = some (GroupedItem.single x) :=
        List.find?_cons_of_pos _ hxX
      have hfy1 : (GroupedItem.single x :: GroupedItem.single y :: rest).find?
          (isSingleNamed "Position Y") = some (GroupedItem.single y) := by
        rw [List.find?_cons_of_neg _ (by simp [hxY]), List.find?_cons_of_pos _ hyY]
      simp only [groupPositionAnimations, hfx1, hfy1]
      rw [if_pos hcond, hfilter]
    · have hfx2 : (GroupedItem.single y :: GroupedItem.single x :: rest).find?
          (isSingleNamed "Position X") = some (GroupedItem.single x) := by
        rw [List.find?_cons_of_neg _ (by simp [hyX]), List.find?_cons_of_pos _ hxX]
      have hfy2 : (GroupedItem.single y :: GroupedItem.single x :: rest).find?
          (isSingleNamed "Position Y") = some (GroupedItem.single y) :=
        List.find?_cons_of_pos _ hyY
      simp only [groupPositionAnimations, hfx2, hfy2]
      rw [if_pos hcond, hfilter2]
  · intro l hne
    rcases groupPositionAnimations_cases l with heq | ⟨px, py, hfx, hfy, hcond, hres⟩
    · exact absurd heq hne
    · exact ⟨px, py, hfx, hfy, hcond.1, hcond.2⟩

/-- Witness for C7: equal-delay linear-eased X and Y entries merge to the
same pair from either order. -/
theorem C7_regroup_witness :
    (∀ l : List GroupedItem,
      groupPositionAnimations (groupPositionAnimations l) = groupPositionAnimations l) ∧
    ((⟨"Position X", 0, 10, 10, ⟨0, 300⟩, PluginEasing.linear⟩ : PluginAnim).timing.delay =
        (⟨"Position Y", 0, 5, 5, ⟨0, 300⟩, PluginEasing.linear⟩ : PluginAnim).timing.delay ∧
      easingsMatch (⟨"Position X", 0, 10, 10, ⟨0, 300⟩, PluginEasing.linear⟩ : PluginAnim).easing
        (⟨"Position Y", 0, 5, 5, ⟨0, 300⟩, PluginEasing.linear⟩ : PluginAnim).easing = true →
      groupPositionAnimations
        [GroupedItem.single ⟨"Position X", 0, 10, 10, ⟨0, 300⟩, PluginEasing.linear⟩,
         GroupedItem.single ⟨"Position Y", 0, 5, 5, ⟨0, 300⟩, PluginEasing.linear⟩] =
        [GroupedItem.pair ⟨"Position X", 0, 10, 10, ⟨0, 300⟩, PluginEasing.linear⟩
          ⟨"Position Y", 0, 5, 5, ⟨0, 300⟩, PluginEasing.linear⟩] ∧
      groupPositionAnimations
        [GroupedItem.single ⟨"Position Y", 0, 5, 5, ⟨0, 300⟩, PluginEasing.linear⟩,
         GroupedItem.single ⟨"Position X", 0, 10, 10, ⟨0, 300⟩, PluginEasing.linear⟩] =
        [GroupedItem.pair ⟨"Position X", 0, 10, 10, ⟨0, 300⟩, PluginEasing.linear⟩
          ⟨"Position Y", 0, 5, 5, ⟨0, 300⟩, PluginEasing.linear⟩]) ∧
    (∀ l : List GroupedItem, groupPositionAnimations l ≠ l →
      ∃ px py : PluginAnim,
        l.find? (isSingleNamed "Position X") = some (GroupedItem.single px) ∧
        l.find? (isSingleNamed "Position Y") = some (GroupedItem.single py) ∧
        px.timing.delay = py.timing.delay ∧ easingsMatch px.easing py.easing = true) :=
  C7_regroup ⟨"Position X", 0, 10, 10, ⟨0, 300⟩, PluginEasing.linear⟩
    ⟨"Position Y", 0, 5, 5, ⟨0, 300⟩, PluginEasing.linear⟩ [] rfl rfl (by decide)

/-- If some marker in the list lies in the selected time range and matches
the property, the marker scan succeeds. -/
theorem scanMarkers_isSome_of_exists (markers : List Marker) (t0 tl : Rat)
    (matchName : String)
    (h : ∃ mk ∈ markers, (t0 ≤ mk.time ∧ mk.time ≤ tl) ∧
      markerMatches mk matchName = true) :
    (scanMarkersForSpring markers t0 tl matchName).isSome = true := by
  induction markers with
  | nil => simp at h
  | cons m rest ih =>
    rw [scanMarkersForSpring]
    rcases h with ⟨mk, hmk, hcond⟩
    rcases List.mem_cons.mp hmk with heq | hmem
    · subst heq
      rcases hcond with ⟨hrange, hmatch⟩
      rw [if_pos hrange]
      cases hs : mk.springs with
      | none =>
        simp only [markerMatches, hs] at hmatch
        exact Bool.noConfusion hmatch
      | some springs =>
        simp only [markerMatches, hs] at hmatch
        simp only [hs]
        cases hf : findSpringForProperty springs matchName with
        | some s => simp
        | none => rw [hf] at hmatch; simp at hmatch
    · by_cases hr : t0 ≤ m.time ∧ m.time ≤ tl
      · rw [if_pos hr]
        cases hs : m.springs with
        | none =>
          simp only [hs]
          exact ih ⟨mk, hmem, hcond⟩
        | some springs =>
          simp only [hs]
          cases hf : findSpringForProperty springs matchName with
          | some s => simp
          | none =>
            simp only [hf]
            exact ih ⟨mk, hmem, hcond⟩
      · rw [if_neg hr]
        exact ih ⟨mk, hmem, hcond⟩

/-- C1: whenever some layer marker inside the selected-keyframe time range
matches the property AND the property also has a valid cubic-bezier from
its selected keyframes, the classified easing is a Spring with source
"marker" - never the cubic bezier. -/
theorem C1_spring_priority (layer : AELayer) (propInfo : PropInfo)
    (comp : CompInfo) (multiplier : Rat)
    (hsel : 2 ≤ (selectedTimesOf propInfo.property).length)
    (hmk : ∃ mk ∈ layer.markers,
      ((selectedTimesOf propInfo.property).headD 0 ≤ mk.time ∧
        mk.time ≤ (selectedTimesOf propInfo.property).getLastD 0) ∧
      markerMatches mk propInfo.matchName = true)
    (_hbez : (extractCubicBezierFromSelectedKeyframesForProperty propInfo.property).isSome = true) :
    ∃ sd : SpringEasingData,
      (extractAnimationData layer propInfo comp multiplier).easing =
        Easing.spring sd "marker" := by
  have hlen : 0 < layer.markers.length := by
    rcases hmk with ⟨mk, hmem, _⟩
    exact List.length_pos.mpr (List.ne_nil_of_mem hmem)
  have hscan := scanMarkers_isSome_of_exists layer.markers
    ((selectedTimesOf propInfo.property).headD 0)
    ((selectedTimesOf propInfo.property).getLastD 0) propInfo.matchName hmk
  obtain ⟨matched, hm⟩ := Option.isSome_iff_exists.mp hscan
  refine ⟨resolveSpringData matched, ?_⟩
  show easingOf layer propInfo.property propInfo.matchName = _
  simp only [easingOf]
  rw [if_pos (And.intro hlen hsel), hm]
  rfl

/-- Witness for C1: a position property with two selected bezier keyframes
(a valid cubic-bezier) and a Standard Spring marker at 0.5s inside the
selected range classifies as a marker spring. -/
theorem C1_spring_priority_witness :
    ∃ sd : SpringEasingData,
      (extractAnimationData ⟨[⟨1, some [⟨"Standard Spring", none, none⟩]⟩]⟩
        ⟨⟨"Position", true,
          [⟨true, 0, JValue.vec2 0 0, InterpKind.bezier, InterpKind.bezier,
            [⟨50, 0⟩], [⟨50, 0⟩]⟩,
           ⟨true, 2, JValue.vec2 100 0, InterpKind.bezier, InterpKind.bezier,
            [⟨50, 0⟩], [⟨50, 0⟩]⟩]⟩,
         "Position", "ADBE Position"⟩ ⟨0⟩ 1).easing = Easing.spring sd "marker" :=
  C1_spring_priority ⟨[⟨1, some [⟨"Standard Spring", none, none⟩]⟩]⟩
    ⟨⟨"Position", true,
      [⟨true, 0, JValue.vec2 0 0, InterpKind.bezier, InterpKind.bezier,
        [⟨50, 0⟩], [⟨50, 0⟩]⟩,
       ⟨true, 2, JValue.vec2 100 0, InterpKind.bezier, InterpKind.bezier,
        [⟨50, 0⟩], [⟨50, 0⟩]⟩]⟩,
     "Position", "ADBE Position"⟩ ⟨0⟩ 1
    (by decide) (by decide) (by decide)

/-- C8: per-layer and per-property extraction failures are isolated. A
layer whose processing fails is omitted and every other layer is still
processed; a property whose extraction fails is dropped and the remaining
properties of its layer are still extracted; and the whole build is a total
function of the per-layer results (the `filterMap` characterization), so no
failure ever aborts the run. -/
theorem C8_failure_isolation {L P A : Type} (layerName : L → String)
    (fitToShape : L → Bool) (getProps : L → Except String (List P))
    (extractAnim : L → P → Except String A)
    (pre post : List L) (bad : L) (msg : String)
    (hbad : getProps bad = Except.error msg)
    (layer : L) (ps1 ps2 : List P) (p : P) (pmsg : String)
    (hp : extractAnim layer p = Except.error pmsg) :
    (buildMotionSpecLayers layerName fitToShape getProps extractAnim (pre ++ bad :: post) =
      buildMotionSpecLayers layerName fitToShape getProps extractAnim (pre ++ post)) ∧
    (processProperties (extractAnim layer) (ps1 ++ p :: ps2) =
      processProperties (extractAnim layer) (ps1 ++ ps2)) ∧
    (∀ layers : List L,
      buildMotionSpecLayers layerName fitToShape getProps extractAnim layers =
        layers.filterMap (layerSummary layerName fitToShape getProps extractAnim)) := by
  refine ⟨?_, ?_, ?_⟩
  · induction pre with
    | nil =>
      rw [List.nil_append, List.nil_append, buildMotionSpecLayers, hbad]
    | cons l pre ih =>
      rw [List.cons_append, List.cons_append, buildMotionSpecLayers, buildMotionSpecLayers]
      cases hgp : getProps l with
      | error e => exact ih
      | ok props =>
        dsimp only
        by_cases hif : 0 < (processProperties (extractAnim l) props).length ∨
            fitToShape l = true
        · rw [if_pos hif, if_pos hif, ih]
        · rw [if_neg hif, if_neg hif]
          exact ih
  · induction ps1 with
    | nil =>
      rw [List.nil_append, List.nil_append, processProperties, hp]
    | cons q ps1 ih =>
      rw [List.cons_append, List.cons_append, processProperties, processProperties]
      cases hq : extractAnim layer q with
      | ok a =>
        dsimp only
        rw [ih]
      | error e => exact ih
  · intro layers
    induction layers with
    | nil => rfl
    | cons l ls ih =>
      rw [buildMotionSpecLayers, List.filterMap_cons]
      simp only [layerSummary]
      cases hgp : getProps l with
      | error e =>
        dsimp only
        exact ih
      | ok props =>
        dsimp only
        by_cases hif : 0 < (processProperties (extractAnim l) props).length ∨
            fitToShape l = true
        · rw [if_pos hif, if_pos hif]
          dsimp only
          rw [ih]
        · rw [if_neg hif, if_neg hif]
          dsimp only
          exact ih

/-- Witness for C8: layer 0 fails (`getProps` throws) and is skipped while
layers 1 and 2 are processed; property 1 fails and is dropped while
property 0 is extracted. -/
theorem C8_failure_isolation_witness :
    (buildMotionSpecLayers (fun _ : Nat => "L") (fun _ : Nat => false)
        (fun l : Nat => if l = 0 then Except.error "boom" else Except.ok [0, 1])
        (fun _ : Nat => fun q : Nat => if q = 1 then Except.error "p" else Except.ok q)
        ([1] ++ 0 :: [2]) =
      buildMotionSpecLayers (fun _ : Nat => "L") (fun _ : Nat => false)
        (fun l : Nat => if l = 0 then Except.error "boom" else Except.ok [0, 1])
        (fun _ : Nat => fun q : Nat => if q = 1 then Except.error "p" else Except.ok q)
        ([1] ++ [2])) ∧
    (processProperties (fun q : Nat => if q = 1 then Except.error "p" else Except.ok q)
        ([0] ++ 1 :: []) =
      processProperties (fun q : Nat => if q = 1 then Except.error "p" else Except.ok q)
        ([0] ++ [])) ∧
    (∀ layers : List Nat,
      buildMotionSpecLayers (fun _ : Nat => "L") (fun _ : Nat => false)
        (fun l : Nat => if l = 0 then Except.error "boom" else Except.ok [0, 1])
        (fun _ : Nat => fun q : Nat => if q = 1 then Except.error "p" else Except.ok q)
        layers =
        layers.filterMap (layerSummary (fun _ : Nat => "L") (fun _ : Nat => false)
          (fun l : Nat => if l = 0 then Except.error "boom" else Except.ok [0, 1])
          (fun _ : Nat => fun q : Nat => if q = 1 then Except.error "p" else Except.ok q))) :=
  C8_failure_isolation (fun _ : Nat => "L") (fun _ : Nat => false)
    (fun l : Nat => if l = 0 then Except.error "boom" else Except.ok [0, 1])
    (fun _ : Nat => fun q : Nat => if q = 1 then Except.error "p" else Except.ok q)
    [1] [2] 0 "boom" rfl 1 [0] [] 1 "p" rfl
